import Mathlib

/-!
Verification of the SimpleModbusAsync Modbus RTU engine and the
Sensors memory handlers (aattww/sensors).

The C++ sources are shallowly embedded: machine integers become `Nat`
with explicit truncation (`% 256`, `% 65536`, `% 2^32`) exactly where
the C code narrows a value, the shared 50-byte frame buffer becomes a
`List Nat`, and each member function becomes a pure Lean function from
an explicit engine state (plus a poll environment carrying the serial
and clock inputs) to a result and an updated state.
-/

namespace Sensors

/-! ## Status codes and constants (SimpleModbusAsync.h) -/

def NO_FRAMES : Nat := 0
def ERROR_OVERFLOW : Nat := 1
def ERROR_CRC_FAILED : Nat := 2
def ERROR_CORRUPTED : Nat := 3
def ERROR_ILLEGAL_FUNCTION : Nat := 4
def ERROR_ILLEGAL_ADDRESS : Nat := 5
def FRAME_SENDING : Nat := 7
def FRAME_SENT : Nat := 8
def FRAME_RECEIVING : Nat := 9
def FRAME_RECEIVED : Nat := 10
def MASTER_RECEIVED : Nat := 11
def MASTER_ERROR : Nat := 12

def BUFFER_SIZE : Nat := 50

def MASTER_READ_TIMEOUT : Nat := 1000

/-- Unsigned 32-bit subtraction `now - t0` as the AVR C code computes it
on `uint32_t` values returned by millis and micros. -/
def sub32 (t0 now : Nat) : Nat :=
  (now + (4294967296 - t0 % 4294967296)) % 4294967296

/-! ## CRC-16 (SimpleModbusAsync::calculateCRC) -/

/-- One iteration of the inner bit loop of calculateCRC:
flag = temp and 1; temp shifted right; conditional xor with 0xa001. -/
def crcBitStep (temp : Nat) : Nat :=
  let flag := temp &&& 0x0001
  let temp := temp >>> 1
  if flag ≠ 0 then temp ^^^ 0xa001 else temp

/-- Processing of one input byte by calculateCRC: xor the byte into the
running register, then run the bit loop eight times. -/
def crcByteStep (temp b : Nat) : Nat :=
  (List.range 8).foldl (fun t _ => crcBitStep t) (temp ^^^ b)

/-- The raw running CRC register of calculateCRC over a byte list,
seed 0xffff, before the final byte swap. -/
def crcRaw (bytes : List Nat) : Nat :=
  bytes.foldl crcByteStep 0xffff

/-- SimpleModbusAsync::calculateCRC: Modbus CRC over the first
bufferSize bytes of the frame, with high and low bytes swapped
before returning, exactly as the source computes it. -/
def calculateCRC (frame : List Nat) (bufferSize : Nat) : Nat :=
  let temp := crcRaw (frame.take bufferSize)
  ((temp <<< 8) &&& 0xff00) ||| ((temp >>> 8) &&& 0x00ff)

/-- Modelled from the spec: the reference Modbus CRC-16 value
(reflected polynomial 0xA001, seed 0xFFFF, process each byte then
eight conditional shift-xor steps), without any byte swap. -/
def modbusCRCReference (bytes : List Nat) : Nat :=
  bytes.foldl (fun temp b =>
    (List.range 8).foldl (fun t _ =>
      let flag := t &&& 1
      let t := t >>> 1
      if flag ≠ 0 then t ^^^ 0xa001 else t) (temp ^^^ b)) 0xffff

/-- Modelled from the spec: swapping the high and low bytes of a
16-bit value. -/
def byteSwap16 (x : Nat) : Nat :=
  (x % 256) * 256 + x / 256

/-! ### Bit-arithmetic helper lemmas -/

theorem shiftLeft8_or_eq (hi lo : Nat) (h : lo < 256) :
    (hi <<< 8) ||| lo = 256 * hi + lo := by
  have h2 : (256 : Nat) = 2 ^ 8 := by norm_num
  rw [Nat.shiftLeft_eq, h2, Nat.mul_comm hi (2 ^ 8)]
  exact (Nat.mul_add_lt_is_or (by omega) hi).symm

theorem crcBitStep_lt (t : Nat) (h : t < 65536) : crcBitStep t < 65536 := by
  have h1 : t >>> 1 < 65536 := by
    rw [Nat.shiftRight_eq_div_pow]
    omega
  show (if t &&& 0x0001 ≠ 0 then (t >>> 1) ^^^ 0xa001 else t >>> 1) < 65536
  split
  · have h2 : (65536 : Nat) = 2 ^ 16 := by norm_num
    rw [h2] at h1 ⊢
    exact Nat.xor_lt_two_pow h1 (by norm_num)
  · exact h1

theorem crcByteStep_lt (t b : Nat) (ht : t < 65536) (hb : b < 256) :
    crcByteStep t b < 65536 := by
  unfold crcByteStep
  have hx : t ^^^ b < 65536 := by
    have h2 : (65536 : Nat) = 2 ^ 16 := by norm_num
    rw [h2]
    exact Nat.xor_lt_two_pow (by omega) (by omega)
  have loop : ∀ (l : List Nat) (t0 : Nat), t0 < 65536 →
      l.foldl (fun t _ => crcBitStep t) t0 < 65536 := by
    intro l
    induction l with
    | nil => intro t0 h0; simpa using h0
    | cons x xs ih =>
      intro t0 h0
      simpa using ih (crcBitStep t0) (crcBitStep_lt t0 h0)
  exact loop _ _ hx

theorem crcRaw_lt (bytes : List Nat) (h : ∀ b ∈ bytes, b < 256) :
    crcRaw bytes < 65536 := by
  unfold crcRaw
  have gen : ∀ (l : List Nat), (∀ b ∈ l, b < 256) → ∀ (t : Nat), t < 65536 →
      l.foldl crcByteStep t < 65536 := by
    intro l
    induction l with
    | nil => intro _ t ht; simpa using ht
    | cons x xs ih =>
      intro hl t ht
      have hx : x < 256 := hl x (by simp)
      have hxs : ∀ b ∈ xs, b < 256 := fun b hb => hl b (by simp [hb])
      simpa using ih hxs (crcByteStep t x) (crcByteStep_lt t x ht hx)
  exact gen bytes h 0xffff (by norm_num)

theorem calculateCRC_lt (frame : List Nat) (n : Nat) :
    calculateCRC frame n < 65536 := by
  unfold calculateCRC
  have h2 : (65536 : Nat) = 2 ^ 16 := by norm_num
  rw [h2]
  exact Nat.or_lt_two_pow
    (Nat.and_lt_two_pow _ (by norm_num))
    (Nat.and_lt_two_pow _ (by norm_num))

theorem and_255_eq_mod (x : Nat) : x &&& 0xff = x % 256 := by
  have h : (0xff : Nat) = 2 ^ 8 - 1 := by norm_num
  rw [h, Nat.and_pow_two_sub_one_eq_mod]

/-- The masked left shift in the byte swap keeps exactly the low byte,
moved to the high position. -/
theorem shiftLeft_and_ff00 (t : Nat) :
    (t <<< 8) &&& 0xff00 = (t % 256) <<< 8 := by
  have hmask : (0xff00 : Nat) = (2 ^ 8 - 1) <<< 8 := by decide
  have hmod : t % 256 = t &&& (2 ^ 8 - 1) := by
    rw [Nat.and_pow_two_sub_one_eq_mod]
  rw [hmask, hmod]
  apply Nat.eq_of_testBit_eq
  intro i
  simp only [Nat.testBit_and, Nat.testBit_shiftLeft, Nat.testBit_two_pow_sub_one]
  by_cases h8 : 8 ≤ i <;> simp [h8]

/-- The byte swap written with shifts and masks in the source equals the
arithmetic byte swap, for any 16-bit register value. -/
theorem swap_eq_byteSwap16 (t : Nat) (h : t < 65536) :
    ((t <<< 8) &&& 0xff00) ||| ((t >>> 8) &&& 0x00ff) = byteSwap16 t := by
  have hdiv : t / 256 < 256 := by omega
  have hr : (t >>> 8) &&& 0x00ff = t / 256 := by
    rw [Nat.shiftRight_eq_div_pow, and_255_eq_mod]
    have h8 : (2 : Nat) ^ 8 = 256 := by norm_num
    rw [h8]
    omega
  rw [shiftLeft_and_ff00, hr, shiftLeft8_or_eq _ _ hdiv, byteSwap16]
  ring

/-- Recombining the stored high and low CRC bytes, as the validation in
modbusUpdate does, recovers the 16-bit CRC value. -/
theorem recombine_crc (crc : Nat) (h : crc < 65536) :
    ((crc >>> 8) <<< 8) ||| (crc % 256) = crc := by
  have hdiv : crc >>> 8 = crc / 256 := by
    rw [Nat.shiftRight_eq_div_pow]
  rw [hdiv, shiftLeft8_or_eq _ _ (by omega)]
  omega

/-- calculateCRC reads only the first bufferSize bytes of the frame. -/
theorem calculateCRC_congr (f g : List Nat) (n : Nat)
    (hfg : f.take n = g.take n) : calculateCRC f n = calculateCRC g n := by
  unfold calculateCRC
  rw [hfg]

/-! ## Engine state (the private members of class SimpleModbusAsync) -/

/-- The state of a SimpleModbusAsync instance. The 50-byte frame array
is a list, clock samples are naturals, and txLog is a ghost log of the
byte sequences handed to the serial port for transmission. -/
structure ModbusState where
  frame : List Nat
  address : Nat
  t1_5 : Nat
  t3_5 : Nat
  lastCharReceived : Nat
  onGoing : Bool
  buffer : Nat
  overflow : Bool
  isSending : Bool
  waitingResponseFrom : Nat
  masterSentRequest : Nat
  masterHasResponse : Bool
  txLog : List (List Nat)
deriving DecidableEq

/-- Inputs a single poll of modbusUpdate draws from the environment:
the hardware transmit-complete condition, the two clocks, and the next
serial byte if one is available. -/
structure PollEnv where
  txComplete : Bool
  millisNow : Nat
  microsNow : Nat
  incoming : Option Nat
deriving DecidableEq

/-- What one call of modbusUpdate produces: the returned status code,
the updated engine state, and the values written through the three
output pointers (none when the code does not write them). -/
structure PollResult where
  status : Nat
  state : ModbusState
  startRegister : Option Nat
  nrOfRegisters : Option Nat
  functionCode : Option Nat
deriving DecidableEq

/-! ## Operations (SimpleModbusAsync.cpp) -/

/-- SimpleModbusAsync::setComms: resets the flags and derives the two
timing parameters from the baud rate; the quotients are stored into
uint16_t members, hence the mod 65536. -/
def setComms (s : ModbusState) (baud : Nat) : ModbusState :=
  let s := { s with onGoing := false, isSending := false,
                    waitingResponseFrom := 0, masterHasResponse := false }
  if baud > 19200 then
    { s with t1_5 := 750, t3_5 := 1750 }
  else
    { s with t1_5 := (15000000 / baud) % 65536,
             t3_5 := (35000000 / baud) % 65536 }

/-- SimpleModbusAsync::flushPort: clears all flags (the serial drain is
input-side and outside the state). -/
def flushPort (s : ModbusState) : ModbusState :=
  { s with buffer := 0, onGoing := false, isSending := false,
           waitingResponseFrom := 0, masterHasResponse := false,
           overflow := false }

/-- SimpleModbusAsync::sendResponse: marks sending in progress and hands
the first bytes of the frame buffer to the serial port (recorded in the
ghost transmit log). The busy wait and driver-enable pin are timing-only
effects. -/
def sendResponse (s : ModbusState) (bytes : Nat) : ModbusState :=
  { s with isSending := true, txLog := s.txLog ++ [s.frame.take bytes] }

/-- SimpleModbusAsync::finishSend: clears the sending flag. -/
def finishSend (s : ModbusState) : ModbusState :=
  { s with isSending := false }

/-- Shared tail of sendErrorResponse after the exception byte has been
placed in frame[2]: append the CRC and transmit five bytes. -/
def sendErrorResponseFinish (s : ModbusState) : ModbusState :=
  let crc := calculateCRC s.frame 3
  let s := { s with frame := (s.frame.set 3 (crc >>> 8)).set 4 (crc % 256) }
  sendResponse s 5

/-- SimpleModbusAsync::sendErrorResponse. Note that the source clears
the master-response flag and writes frame bytes 0 and 1 before
validating the error code, and never checks whether a transmission is
already in progress. -/
def sendErrorResponse (s : ModbusState) (originalFunctionCode modbusErrorCode : Nat) :
    Bool × ModbusState :=
  let s := { s with masterHasResponse := false }
  let s := { s with frame := (s.frame.set 0 s.address).set 1 (originalFunctionCode ||| 0x80) }
  if modbusErrorCode = ERROR_ILLEGAL_ADDRESS then
    (true, sendErrorResponseFinish { s with frame := s.frame.set 2 0x02 })
  else if modbusErrorCode = ERROR_ILLEGAL_FUNCTION then
    (true, sendErrorResponseFinish { s with frame := s.frame.set 2 0x01 })
  else
    (false, s)

/-- The payload copy loop of sendNormalResponse: frame[3+i] =
payload[i+offset] for i below length. -/
def writePayload (frame payload : List Nat) (length offset : Nat) : List Nat :=
  (List.range length).foldl (fun f i => f.set (3 + i) (payload.getD (i + offset) 0)) frame

/-- SimpleModbusAsync::sendNormalResponse. As in the source, the
master-response flag is cleared before validation and no check of an
in-progress transmission is made. -/
def sendNormalResponse (s : ModbusState) (originalFunctionCode : Nat)
    (payload : List Nat) (length offset : Nat) : Bool × ModbusState :=
  let s := { s with masterHasResponse := false }
  if ((originalFunctionCode = 3 ∨ originalFunctionCode = 4) ∧ length + 5 ≤ BUFFER_SIZE) then
    let s := { s with frame := ((s.frame.set 0 s.address).set 1 originalFunctionCode).set 2 length }
    let s := { s with frame := writePayload s.frame payload length offset }
    let crc := calculateCRC s.frame (length + 3)
    let s := { s with frame := (s.frame.set (length + 3) (crc >>> 8)).set (length + 4) (crc % 256) }
    (true, sendResponse s (length + 5))
  else
    (false, s)

/-- The first six bytes of the request frame masterRead builds, followed
by its CRC bytes in the order and truncation the source stores them. -/
def requestBytes (node function start nrOfRegisters : Nat) : List Nat :=
  let base := [node, function, start >>> 8, start % 256,
               nrOfRegisters >>> 8, nrOfRegisters % 256]
  let crc := calculateCRC base 6
  base ++ [crc >>> 8, crc % 256]

/-- SimpleModbusAsync::masterRead. The response-size check
nrOfRegisters * 2 + 5 is computed on the AVR target in 16-bit unsigned
arithmetic (uint16_t promotes to the 16-bit unsigned int), so it wraps
modulo 65536 before the comparison with BUFFER_SIZE. -/
def masterRead (s : ModbusState) (millisNow : Nat)
    (node function start nrOfRegisters : Nat) : Bool × ModbusState :=
  if ¬(1 ≤ node ∧ node ≤ 254 ∧ (function = 3 ∨ function = 4) ∧ 0 < nrOfRegisters) then
    (false, s)
  else if (nrOfRegisters * 2 + 5) % 65536 > BUFFER_SIZE then
    (false, s)
  else if s.onGoing ∨ s.isSending ∨ s.waitingResponseFrom ≠ 0 then
    (false, s)
  else
    let s := flushPort s
    let s := { s with frame :=
      (((((s.frame.set 0 node).set 1 function).set 2 (start >>> 8)).set 3 (start % 256)).set 4
        (nrOfRegisters >>> 8)).set 5 (nrOfRegisters % 256) }
    let crc := calculateCRC s.frame 6
    let s := { s with frame := (s.frame.set 6 (crc >>> 8)).set 7 (crc % 256) }
    let s := { s with waitingResponseFrom := node }
    let s := sendResponse s 8
    let s := { s with masterSentRequest := millisNow }
    (true, s)

/-- The payload copy loop of masterGetLastResponse: buffer[i] =
frame[3+i] for i below frame[2]. -/
def copyPayload (frame buffer : List Nat) (n : Nat) : List Nat :=
  (List.range n).foldl (fun b i => b.set i (frame.getD (3 + i) 0)) buffer

/-- SimpleModbusAsync::masterGetLastResponse. The length comparisons are
on int after C integer promotion, hence the casts. Returns the value
returned, the engine state after the call, and the caller's buffer
after the call. -/
def masterGetLastResponse (s : ModbusState) (buffer : List Nat) (length : Nat) :
    Nat × ModbusState × List Nat :=
  if s.masterHasResponse then
    if (s.buffer : Int) - 5 ≤ (length : Int) then
      if (s.buffer : Int) - 5 = ((s.frame.getD 2 0 : Nat) : Int) then
        (s.frame.getD 2 0, s, copyPayload s.frame buffer (s.frame.getD 2 0))
      else (0, s, buffer)
    else (0, s, buffer)
  else (0, s, buffer)

/-- The frame-processing tail of modbusUpdate, reached once a completed
frame is waiting in the buffer (source lines 177-256). -/
def processFrame (s : ModbusState) : PollResult :=
  let s := { s with onGoing := false }
  if s.overflow then
    ⟨ERROR_OVERFLOW, s, none, none, none⟩
  else if (8 ≤ s.buffer ∧ s.waitingResponseFrom = 0) ∨
          (7 ≤ s.buffer ∧ s.waitingResponseFrom ≠ 0) then
    let crc := (s.frame.getD (s.buffer - 2) 0 <<< 8) ||| s.frame.getD (s.buffer - 1) 0
    if calculateCRC s.frame (s.buffer - 2) = crc then
      if s.frame.getD 0 0 = s.address ∧ s.waitingResponseFrom = 0 then
        if s.frame.getD 1 0 = 3 ∨ s.frame.getD 1 0 = 4 then
          ⟨FRAME_RECEIVED, s,
            some ((s.frame.getD 2 0 <<< 8) ||| s.frame.getD 3 0),
            some ((s.frame.getD 4 0 <<< 8) ||| s.frame.getD 5 0),
            some (s.frame.getD 1 0)⟩
        else
          ⟨ERROR_ILLEGAL_FUNCTION,
            (sendErrorResponse s (s.frame.getD 1 0) ERROR_ILLEGAL_FUNCTION).2,
            none, none, none⟩
      else if s.frame.getD 0 0 = s.waitingResponseFrom then
        let s := { s with waitingResponseFrom := 0 }
        if s.frame.getD 1 0 = 3 ∨ s.frame.getD 1 0 = 4 then
          ⟨MASTER_RECEIVED, { s with masterHasResponse := true }, none, none, none⟩
        else if s.frame.getD 1 0 &&& 0x80 ≠ 0 then
          ⟨MASTER_ERROR, s, none, none, none⟩
        else
          ⟨MASTER_ERROR, s, none, none, none⟩
      else
        ⟨NO_FRAMES, s, none, none, none⟩
    else
      ⟨ERROR_CRC_FAILED, { s with waitingResponseFrom := 0 }, none, none, none⟩
  else
    ⟨ERROR_CORRUPTED, { s with waitingResponseFrom := 0 }, none, none, none⟩

/-- The master-response timeout block at the top of modbusUpdate
(source lines 128-134): clear the outstanding-request marker when the
request is older than MASTER_READ_TIMEOUT. -/
def clearTimeout (s : ModbusState) (millisNow : Nat) : ModbusState :=
  if s.waitingResponseFrom ≠ 0 then
    (if MASTER_READ_TIMEOUT < sub32 s.masterSentRequest millisNow then
       { s with waitingResponseFrom := 0 }
     else s)
  else s

/-- SimpleModbusAsync::modbusUpdate: one poll of the engine. -/
def modbusUpdate (s : ModbusState) (env : PollEnv) : PollResult :=
  if s.isSending then
    if env.txComplete then
      ⟨FRAME_SENT, finishSend s, none, none, none⟩
    else
      ⟨FRAME_SENDING, s, none, none, none⟩
  else
    let s := clearTimeout s env.millisNow
    match env.incoming with
    | none =>
      if ¬s.onGoing then
        ⟨NO_FRAMES, s, none, none, none⟩
      else if sub32 s.lastCharReceived env.microsNow < s.t1_5 then
        ⟨FRAME_RECEIVING, s, none, none, none⟩
      else
        processFrame s
    | some b =>
      let s := if ¬s.onGoing then
                 { s with buffer := 0, overflow := false, onGoing := true,
                          masterHasResponse := false }
               else s
      let s := if s.overflow then s
               else if s.buffer = BUFFER_SIZE then
                 { s with overflow := true }
               else
                 { s with frame := s.frame.set s.buffer b, buffer := s.buffer + 1 }
      ⟨FRAME_RECEIVING, { s with lastCharReceived := env.microsNow }, none, none, none⟩

/-! ## Sensors23K256Handler (Sensors23K256Handler.cpp) -/

/-- State of a Sensors23K256Handler: the initialized flag and the
contents of the 23K256 SRAM chip, as a byte-valued function of the
16-bit address. -/
structure Sram23K256State where
  initialized : Bool
  memory : Nat → Nat

/-- Sensors23K256Handler::readByte. -/
def readByte23 (s : Sram23K256State) (address : Nat) : Nat :=
  if ¬s.initialized then 0 else s.memory address

/-- Sensors23K256Handler::readSequence: reads length bytes starting at
address into the caller's buffer. -/
def readSequence23 (s : Sram23K256State) (address length : Nat)
    (buffer : List Nat) : List Nat :=
  if ¬s.initialized then buffer
  else (List.range length).foldl (fun b i => b.set i (s.memory (address + i))) buffer

/-- Sensors23K256Handler::getNodeHeader: the first byte of the node's
100-byte slot (the uint16_t cast of nodeId*100 never truncates for
nodeId below 256). -/
def getNodeHeader23 (s : Sram23K256State) (nodeId : Nat) : Nat :=
  if ¬s.initialized then 0
  else readByte23 s ((nodeId * 100) % 65536)

/-- Sensors23K256Handler::getNodeData. The clamp is the uint8_t
assignment length = 100 - offset computed on int and narrowed to a
byte: for offset up to 255 that value is (356 - offset) % 256. -/
def getNodeData23 (s : Sram23K256State) (nodeId length offset : Nat)
    (buffer : List Nat) : Nat × List Nat :=
  if ¬s.initialized then (0, buffer)
  else if getNodeHeader23 s nodeId = 0 then (0, buffer)
  else
    let length := if 100 < length + offset then (356 - offset) % 256 else length
    (length, readSequence23 s ((nodeId * 100 + offset) % 65536) length buffer)

/-- Sensors23K256Handler::saveNodeData (writes happen on the SPI bus;
the returned count is what callers observe). -/
def saveNodeData23 (s : Sram23K256State) (nodeId length : Nat) : Nat :=
  if ¬s.initialized then 0
  else if 100 < length then 100 else length

/-! ## Helper lemmas about the embedding -/

theorem clearTimeout_frame (s : ModbusState) (t : Nat) :
    (clearTimeout s t).frame = s.frame := by
  unfold clearTimeout
  repeat' split
  all_goals rfl

theorem clearTimeout_address (s : ModbusState) (t : Nat) :
    (clearTimeout s t).address = s.address := by
  unfold clearTimeout
  repeat' split
  all_goals rfl

theorem clearTimeout_t1_5 (s : ModbusState) (t : Nat) :
    (clearTimeout s t).t1_5 = s.t1_5 := by
  unfold clearTimeout
  repeat' split
  all_goals rfl

theorem clearTimeout_lastCharReceived (s : ModbusState) (t : Nat) :
    (clearTimeout s t).lastCharReceived = s.lastCharReceived := by
  unfold clearTimeout
  repeat' split
  all_goals rfl

theorem clearTimeout_onGoing (s : ModbusState) (t : Nat) :
    (clearTimeout s t).onGoing = s.onGoing := by
  unfold clearTimeout
  repeat' split
  all_goals rfl

theorem clearTimeout_buffer (s : ModbusState) (t : Nat) :
    (clearTimeout s t).buffer = s.buffer := by
  unfold clearTimeout
  repeat' split
  all_goals rfl

theorem clearTimeout_overflow (s : ModbusState) (t : Nat) :
    (clearTimeout s t).overflow = s.overflow := by
  unfold clearTimeout
  repeat' split
  all_goals rfl

theorem clearTimeout_isSending (s : ModbusState) (t : Nat) :
    (clearTimeout s t).isSending = s.isSending := by
  unfold clearTimeout
  repeat' split
  all_goals rfl

theorem clearTimeout_masterSentRequest (s : ModbusState) (t : Nat) :
    (clearTimeout s t).masterSentRequest = s.masterSentRequest := by
  unfold clearTimeout
  repeat' split
  all_goals rfl

theorem clearTimeout_masterHasResponse (s : ModbusState) (t : Nat) :
    (clearTimeout s t).masterHasResponse = s.masterHasResponse := by
  unfold clearTimeout
  repeat' split
  all_goals rfl

theorem clearTimeout_txLog (s : ModbusState) (t : Nat) :
    (clearTimeout s t).txLog = s.txLog := by
  unfold clearTimeout
  repeat' split
  all_goals rfl

theorem clearTimeout_of_waiting_zero (s : ModbusState) (t : Nat)
    (h : s.waitingResponseFrom = 0) : clearTimeout s t = s := by
  unfold clearTimeout
  simp [h]

theorem clearTimeout_waiting (s : ModbusState) (t : Nat) :
    (clearTimeout s t).waitingResponseFrom = 0 ∨
    (clearTimeout s t).waitingResponseFrom = s.waitingResponseFrom := by
  unfold clearTimeout
  repeat' split
  all_goals simp

/-- In a frame of bytes every getD read is below 256 (the default 0 is
as well). -/
theorem getD_lt_256 (l : List Nat) (h : ∀ b ∈ l, b < 256) (i : Nat) :
    l.getD i 0 < 256 := by
  rw [List.getD_eq_getElem?_getD]
  cases hx : l[i]? with
  | none => simp
  | some v =>
    have hv : v ∈ l := List.getElem?_mem hx
    simpa [hx] using h v hv

/-- Setting an index at or beyond the taken prefix leaves the prefix
unchanged. -/
theorem take_set_of_le {α : Type} (l : List α) (n i : Nat) (a : α) (h : n ≤ i) :
    (l.set i a).take n = l.take n := by
  rw [List.set_take]
  apply List.set_eq_of_length_le
  simp
  omega

/-- The raw CRC register and the spec's reference CRC are the same
computation. -/
theorem crcRaw_eq_reference (bytes : List Nat) :
    modbusCRCReference bytes = crcRaw bytes := rfl

/-! ## C1: CRC correctness and round trip -/

/-- C1: for a byte sequence in the frame buffer and a count not above
the stored bytes, calculateCRC equals the reference Modbus CRC-16
(polynomial 0xA001, seed 0xFFFF) with its bytes swapped; and appending
the two CRC bytes in the stored order to any frame body makes the
re-validation comparison of modbusUpdate pass. -/
theorem crc_matches_reference_and_roundtrip
    (frame : List Nat) (n : Nat) (hn : n ≤ frame.length)
    (hb : ∀ b ∈ frame, b < 256) (body : List Nat) :
    calculateCRC frame n = byteSwap16 (modbusCRCReference (frame.take n)) ∧
    (let crc := calculateCRC body body.length
     let ext := body ++ [crc >>> 8, crc % 256]
     calculateCRC ext (ext.length - 2) =
       ((ext.getD (ext.length - 2) 0) <<< 8) ||| ext.getD (ext.length - 1) 0) := by
  constructor
  · rw [crcRaw_eq_reference]
    have hlt : crcRaw (frame.take n) < 65536 := by
      apply crcRaw_lt
      intro b hbmem
      exact hb b (List.take_subset n frame hbmem)
    unfold calculateCRC
    exact swap_eq_byteSwap16 _ hlt
  · intro crc ext
    have hcrclt : crc < 65536 := calculateCRC_lt body body.length
    have hlen : ext.length - 2 = body.length := by
      simp [ext]
    have htake : ext.take body.length = body := List.take_left body _
    have hcrcext : calculateCRC ext body.length = crc := by
      have h1 : calculateCRC ext body.length = calculateCRC body body.length := by
        apply calculateCRC_congr
        rw [htake, List.take_length]
      exact h1
    have hhi : ext.getD body.length 0 = crc >>> 8 := by
      simp only [ext, List.getD_eq_getElem?_getD]
      rw [List.getElem?_append_right (Nat.le_refl _)]
      simp
    have hlo : ext.getD (body.length + 1) 0 = crc % 256 := by
      simp only [ext, List.getD_eq_getElem?_getD]
      rw [List.getElem?_append_right (by omega)]
      simp
    rw [hlen]
    have hlen1 : ext.length - 1 = body.length + 1 := by
      simp [ext]
    rw [hlen1, hcrcext, hhi, hlo]
    exact (recombine_crc crc hcrclt).symm

set_option maxRecDepth 4000 in
/-- Concrete instance of C1: the request frame for node 5, function 3,
register 1, count 2. -/
theorem crc_matches_reference_and_roundtrip_witness :
    (6 ≤ (requestBytes 5 3 1 2).length) ∧
    calculateCRC (requestBytes 5 3 1 2) 6 =
      byteSwap16 (modbusCRCReference ((requestBytes 5 3 1 2).take 6)) ∧
    (let crc := calculateCRC [5, 3, 0, 1, 0, 2] 6
     let ext := [5, 3, 0, 1, 0, 2] ++ [crc >>> 8, crc % 256]
     calculateCRC ext (ext.length - 2) =
       ((ext.getD (ext.length - 2) 0) <<< 8) ||| ext.getD (ext.length - 1) 0) := by
  refine ⟨by decide, ?_⟩
  have h := crc_matches_reference_and_roundtrip (requestBytes 5 3 1 2) 6
    (by decide) (by decide) [5, 3, 0, 1, 0, 2]
  simpa using h

/-! ## C2: slave request dispatch -/

/-- C2: a complete 8-byte frame addressed to this node with function 3
or 4 and a valid trailing CRC, processed by a poll with no master
request outstanding, returns FRAME_RECEIVED and decodes the big-endian
start register, register count and function code. -/
theorem request_dispatch_extracts_fields (s : ModbusState) (env : PollEnv)
    (hsend : s.isSending = false)
    (hwait : s.waitingResponseFrom = 0)
    (hgoing : s.onGoing = true)
    (hover : s.overflow = false)
    (hbuf : s.buffer = 8)
    (hin : env.incoming = none)
    (htime : ¬ sub32 s.lastCharReceived env.microsNow < s.t1_5)
    (haddr : s.frame.getD 0 0 = s.address)
    (hfc : s.frame.getD 1 0 = 3 ∨ s.frame.getD 1 0 = 4)
    (hcrc : calculateCRC s.frame 6 = (s.frame.getD 6 0 <<< 8) ||| s.frame.getD 7 0)
    (hbytes : ∀ b ∈ s.frame, b < 256) :
    (modbusUpdate s env).status = FRAME_RECEIVED ∧
    (modbusUpdate s env).startRegister =
      some (256 * s.frame.getD 2 0 + s.frame.getD 3 0) ∧
    (modbusUpdate s env).nrOfRegisters =
      some (256 * s.frame.getD 4 0 + s.frame.getD 5 0) ∧
    (modbusUpdate s env).functionCode = some (s.frame.getD 1 0) := by
  have hstart : (s.frame.getD 2 0 <<< 8) ||| s.frame.getD 3 0 =
      256 * s.frame.getD 2 0 + s.frame.getD 3 0 :=
    shiftLeft8_or_eq _ _ (getD_lt_256 s.frame hbytes 3)
  have hnr : (s.frame.getD 4 0 <<< 8) ||| s.frame.getD 5 0 =
      256 * s.frame.getD 4 0 + s.frame.getD 5 0 :=
    shiftLeft8_or_eq _ _ (getD_lt_256 s.frame hbytes 5)
  have hct : clearTimeout s env.millisNow = s :=
    clearTimeout_of_waiting_zero s env.millisNow hwait
  simp only [List.getD_eq_getElem?_getD] at hstart hnr hfc haddr hcrc
  simp only [modbusUpdate, hct, hsend, hwait, hin, Bool.false_eq_true, if_false,
    ne_eq, not_true_eq_false, if_neg, ite_self, hgoing]
  simp only [processFrame, hgoing, hover, hbuf, hwait, hcrc, haddr]
  simp [htime, hfc, hstart, hnr, haddr, hcrc, FRAME_RECEIVED]

/-- Concrete instance of C2: node address 5, function 3, start register
1, register count 2, correct CRC. -/
def dispatchState : ModbusState where
  frame := requestBytes 5 3 1 2 ++ List.replicate 42 0
  address := 5
  t1_5 := 1562
  t3_5 := 3645
  lastCharReceived := 0
  onGoing := true
  buffer := 8
  overflow := false
  isSending := false
  waitingResponseFrom := 0
  masterSentRequest := 0
  masterHasResponse := false
  txLog := []

set_option maxRecDepth 8000 in
/-- Concrete instance of C2: polling after the inter-character silence
on the stored frame 05 03 00 01 00 02 plus its CRC yields
FRAME_RECEIVED with start register 1, count 2, function 3. -/
theorem request_dispatch_extracts_fields_witness :
    (modbusUpdate dispatchState ⟨false, 0, 5000, none⟩).status = FRAME_RECEIVED ∧
    (modbusUpdate dispatchState ⟨false, 0, 5000, none⟩).startRegister = some 1 ∧
    (modbusUpdate dispatchState ⟨false, 0, 5000, none⟩).nrOfRegisters = some 2 ∧
    (modbusUpdate dispatchState ⟨false, 0, 5000, none⟩).functionCode = some 3 := by
  have h := request_dispatch_extracts_fields dispatchState ⟨false, 0, 5000, none⟩
    rfl rfl rfl rfl rfl rfl (by decide) (by decide) (by decide) (by decide) (by decide)
  simpa using h

/-! ## C3: the frame buffer never overflows -/

/-- A fold of element writes never changes the length of a list. -/
theorem length_foldl_set (il : List Nat) (f : List Nat) (g h : Nat → Nat) :
    (il.foldl (fun acc i => acc.set (g i) (h i)) f).length = f.length := by
  induction il generalizing f with
  | nil => rfl
  | cons x xs ih => simp [List.foldl_cons, ih]

theorem writePayload_length (f p : List Nat) (l o : Nat) :
    (writePayload f p l o).length = f.length :=
  length_foldl_set (List.range l) f _ _

theorem copyPayload_length (f b : List Nat) (n : Nat) :
    (copyPayload f b n).length = b.length :=
  length_foldl_set (List.range n) b _ _

theorem sendErrorResponse_buffer (s : ModbusState) (fc err : Nat) :
    (sendErrorResponse s fc err).2.buffer = s.buffer := by
  unfold sendErrorResponse sendErrorResponseFinish sendResponse
  repeat' split
  all_goals simp

theorem sendErrorResponse_frame_length (s : ModbusState) (fc err : Nat) :
    (sendErrorResponse s fc err).2.frame.length = s.frame.length := by
  unfold sendErrorResponse sendErrorResponseFinish sendResponse
  repeat' split
  all_goals simp

/-- Frame processing never touches the byte counter. -/
theorem processFrame_buffer (s : ModbusState) :
    (processFrame s).state.buffer = s.buffer := by
  simp only [processFrame]
  repeat' split
  all_goals simp [sendErrorResponse_buffer]

/-- Frame processing never changes the buffer capacity. -/
theorem processFrame_frame_length (s : ModbusState) :
    (processFrame s).state.frame.length = s.frame.length := by
  simp only [processFrame]
  repeat' split
  all_goals simp [sendErrorResponse_frame_length]

/-- One poll keeps the byte counter within the buffer capacity and
keeps the frame buffer's length. -/
theorem modbusUpdate_state_invariants (s : ModbusState) (env : PollEnv)
    (hbuf : s.buffer ≤ BUFFER_SIZE) :
    (modbusUpdate s env).state.buffer ≤ BUFFER_SIZE ∧
    (modbusUpdate s env).state.frame.length = s.frame.length := by
  simp only [modbusUpdate, finishSend]
  repeat' split
  all_goals
    first
    | exact ⟨hbuf, rfl⟩
    | (refine ⟨?_, ?_⟩ <;>
        simp_all [processFrame_buffer, processFrame_frame_length, clearTimeout_buffer,
          clearTimeout_frame, clearTimeout_overflow, clearTimeout_onGoing,
          BUFFER_SIZE] <;> omega)

/-- C3: the count of valid bytes never exceeds the capacity of 50 in
any state reachable by the engine's operations; bytes beyond a full
frame only set the overflow flag and are discarded without a write, and
the poll completing an overflowed frame returns ERROR_OVERFLOW. -/
theorem buffer_bound_invariant (s : ModbusState) (env : PollEnv) (b : Nat)
    (hbuf : s.buffer ≤ BUFFER_SIZE) :
    ((modbusUpdate s env).state.buffer ≤ BUFFER_SIZE ∧
     (modbusUpdate s env).state.frame.length = s.frame.length) ∧
    (s.isSending = false → s.onGoing = true → env.incoming = some b →
      (s.overflow = true ∨ s.buffer = BUFFER_SIZE) →
      (modbusUpdate s env).state.frame = s.frame ∧
      (modbusUpdate s env).state.overflow = true ∧
      (modbusUpdate s env).state.buffer = s.buffer ∧
      (modbusUpdate s env).status = FRAME_RECEIVING) ∧
    (s.isSending = false → s.onGoing = true → s.overflow = true →
      env.incoming = none →
      ¬ sub32 s.lastCharReceived env.microsNow < s.t1_5 →
      (modbusUpdate s env).status = ERROR_OVERFLOW) ∧
    (∀ now node fn st nr,
      (masterRead s now node fn st nr).2.buffer ≤ BUFFER_SIZE ∧
      (masterRead s now node fn st nr).2.frame.length = s.frame.length) ∧
    (∀ fc err,
      (sendErrorResponse s fc err).2.buffer ≤ BUFFER_SIZE ∧
      (sendErrorResponse s fc err).2.frame.length = s.frame.length) ∧
    (∀ fc p l o,
      (sendNormalResponse s fc p l o).2.buffer ≤ BUFFER_SIZE ∧
      (sendNormalResponse s fc p l o).2.frame.length = s.frame.length) ∧
    (∀ baud, (setComms s baud).buffer ≤ BUFFER_SIZE ∧
      (setComms s baud).frame.length = s.frame.length) ∧
    ((flushPort s).buffer ≤ BUFFER_SIZE ∧
      (flushPort s).frame.length = s.frame.length) := by
  refine ⟨modbusUpdate_state_invariants s env hbuf, ?_, ?_, ?_, ?_, ?_, ?_, ?_⟩
  · intro hsend hgoing hinc hfull
    simp only [modbusUpdate, hinc, hsend, Bool.false_eq_true, if_false]
    rcases hfull with hov | hfull
    · repeat' split
      all_goals simp_all [clearTimeout_onGoing, clearTimeout_overflow,
        clearTimeout_frame, clearTimeout_buffer, hgoing, hov]
    · by_cases hov : s.overflow = true
      · repeat' split
        all_goals simp_all [clearTimeout_onGoing, clearTimeout_overflow,
          clearTimeout_frame, clearTimeout_buffer, hgoing, hov]
      · repeat' split
        all_goals simp_all [clearTimeout_onGoing, clearTimeout_overflow,
          clearTimeout_frame, clearTimeout_buffer, hgoing, hov, hfull]
  · intro hsend hgoing hov hinc htime
    simp only [modbusUpdate, hinc, hsend, Bool.false_eq_true, if_false]
    simp only [processFrame]
    repeat' split
    all_goals simp_all [clearTimeout_onGoing, clearTimeout_overflow,
      clearTimeout_lastCharReceived, clearTimeout_t1_5, hgoing, hov, htime]
    all_goals omega
  · intro now node fn st nr
    simp only [masterRead, flushPort, sendResponse]
    repeat' split
    all_goals
      first
      | exact ⟨hbuf, rfl⟩
      | (constructor <;> simp [BUFFER_SIZE])
  · intro fc err
    exact ⟨le_of_eq_of_le (sendErrorResponse_buffer s fc err) hbuf,
           sendErrorResponse_frame_length s fc err⟩
  · intro fc p l o
    simp only [sendNormalResponse, sendResponse]
    repeat' split
    all_goals
      first
      | exact ⟨hbuf, rfl⟩
      | (constructor <;> simp [writePayload_length, hbuf])
  · intro baud
    simp only [setComms]
    repeat' split
    all_goals exact ⟨hbuf, rfl⟩
  · exact ⟨Nat.zero_le _, rfl⟩

/-- A concrete idle engine state with node address 5 and 9600-baud
timings, used to instantiate the general theorems. -/
def mkState : ModbusState where
  frame := List.replicate 50 0
  address := 5
  t1_5 := 1562
  t3_5 := 3645
  lastCharReceived := 0
  onGoing := false
  buffer := 0
  overflow := false
  isSending := false
  waitingResponseFrom := 0
  masterSentRequest := 0
  masterHasResponse := false
  txLog := []

/-- A concrete mid-frame state whose buffer has already overflowed. -/
def ovState : ModbusState :=
  { mkState with onGoing := true, overflow := true, buffer := 50 }

/-- Concrete instance of C3: the poll that completes an overflowed
frame reports ERROR_OVERFLOW, and the byte count stays within the
50-byte capacity. -/
theorem buffer_bound_invariant_witness :
    (modbusUpdate ovState ⟨false, 0, 5000, none⟩).state.buffer ≤ BUFFER_SIZE ∧
    (modbusUpdate ovState ⟨false, 0, 5000, none⟩).status = ERROR_OVERFLOW := by
  have h := buffer_bound_invariant ovState ⟨false, 0, 5000, none⟩ 0 (by decide)
  exact ⟨h.1.1, h.2.2.1 rfl rfl rfl rfl (by decide)⟩

/-! ## C4: behaviour of the two send operations -/

/-- A concrete state that is in the middle of a transmission and holds
a master response. -/
def busyState : ModbusState :=
  { mkState with isSending := true, masterHasResponse := true }

/-- Counterexample to C4: sendErrorResponse called while a transmission
is in progress returns true, not false; and a failing sendNormalResponse
(oversized payload) still clears the master-response flag, so a false
return is not free of state changes. -/
theorem send_busy_check_counterexample :
    busyState.isSending = true ∧
    (sendErrorResponse busyState 3 ERROR_ILLEGAL_FUNCTION).1 = true ∧
    busyState.masterHasResponse = true ∧
    (sendNormalResponse busyState 3 [] 46 0).1 = false ∧
    (sendNormalResponse busyState 3 [] 46 0).2.masterHasResponse = false := by
  refine ⟨rfl, ?_, rfl, ?_, ?_⟩ <;> decide

/-- C4 amended: sendErrorResponse fails exactly on an unknown error
code and sendNormalResponse fails exactly on a bad function code or an
oversized payload; neither checks for a transmission in progress; a
false return transmits nothing, but does clear the master-response
flag, and sendErrorResponse has also already written frame bytes 0 and
1. -/
theorem send_failure_characterization (s : ModbusState)
    (fc err : Nat) (payload : List Nat) (length offset : Nat) :
    ((sendErrorResponse s fc err).1 = false ↔
      (err ≠ ERROR_ILLEGAL_ADDRESS ∧ err ≠ ERROR_ILLEGAL_FUNCTION)) ∧
    ((sendErrorResponse s fc err).1 = false →
      (sendErrorResponse s fc err).2 =
        { s with masterHasResponse := false,
                 frame := (s.frame.set 0 s.address).set 1 (fc ||| 0x80) }) ∧
    ((sendNormalResponse s fc payload length offset).1 = false ↔
      ¬((fc = 3 ∨ fc = 4) ∧ length + 5 ≤ BUFFER_SIZE)) ∧
    ((sendNormalResponse s fc payload length offset).1 = false →
      (sendNormalResponse s fc payload length offset).2 =
        { s with masterHasResponse := false }) := by
  refine ⟨?_, ?_, ?_, ?_⟩
  · unfold sendErrorResponse
    repeat' split
    all_goals simp_all
  · unfold sendErrorResponse
    repeat' split
    all_goals simp_all
  · unfold sendNormalResponse
    split
    all_goals simp_all
  · unfold sendNormalResponse
    split
    all_goals simp_all

/-- Concrete instance of C4 as amended: an unknown error code makes
sendErrorResponse fail after clearing the response flag and writing the
two header bytes. -/
theorem send_failure_characterization_witness :
    (sendErrorResponse busyState 3 9).1 = false ∧
    (sendErrorResponse busyState 3 9).2 =
      { busyState with masterHasResponse := false,
                       frame := (busyState.frame.set 0 busyState.address).set 1 (3 ||| 0x80) } := by
  have h := send_failure_characterization busyState 3 9 [] 0 0
  exact ⟨h.1.mpr (by decide), h.2.1 (h.1.mpr (by decide))⟩

/-! ## C5: masterRead validation and request transmission -/

/-- The eight writes masterRead performs produce exactly the request
bytes in the first eight positions of the frame buffer. -/
theorem take8_set_chain (l : List Nat) (hl : 8 ≤ l.length)
    (a0 a1 a2 a3 a4 a5 a6 a7 : Nat) :
    ((((((((l.set 0 a0).set 1 a1).set 2 a2).set 3 a3).set 4 a4).set 5 a5).set 6
        a6).set 7 a7).take 8 = [a0, a1, a2, a3, a4, a5, a6, a7] := by
  apply List.ext_getElem
  · simp
    omega
  · intro i h1 h2
    simp only [List.getElem_take, List.getElem_set]
    simp at h2
    interval_cases i <;> simp

/-- The first six writes produce the request header in the first six
positions. -/
theorem take6_set_chain (l : List Nat) (hl : 6 ≤ l.length)
    (a0 a1 a2 a3 a4 a5 : Nat) :
    ((((((l.set 0 a0).set 1 a1).set 2 a2).set 3 a3).set 4 a4).set 5 a5).take 6 =
      [a0, a1, a2, a3, a4, a5] := by
  apply List.ext_getElem
  · simp
    omega
  · intro i h1 h2
    simp only [List.getElem_take, List.getElem_set]
    simp at h2
    interval_cases i <;> simp

theorem requestBytes_length (node fn st nr : Nat) :
    (requestBytes node fn st nr).length = 8 := by
  simp [requestBytes]

/-- On the success path masterRead transmits exactly the 8-byte request
frame and records the outstanding request. -/
theorem masterRead_success (s : ModbusState) (now node fn st nr : Nat)
    (h1 : 1 ≤ node) (h2 : node ≤ 254) (h3 : fn = 3 ∨ fn = 4) (h4 : 0 < nr)
    (h5 : (nr * 2 + 5) % 65536 ≤ BUFFER_SIZE) (h6 : s.onGoing = false)
    (h7 : s.isSending = false) (h8 : s.waitingResponseFrom = 0)
    (hlen : s.frame.length = BUFFER_SIZE) :
    (masterRead s now node fn st nr).1 = true ∧
    (masterRead s now node fn st nr).2.isSending = true ∧
    (masterRead s now node fn st nr).2.waitingResponseFrom = node ∧
    (masterRead s now node fn st nr).2.masterSentRequest = now ∧
    (masterRead s now node fn st nr).2.txLog =
      s.txLog ++ [requestBytes node fn st nr] := by
  have h50 : BUFFER_SIZE = 50 := rfl
  have hlen6 : 6 ≤ s.frame.length := by omega
  have hlen8 : 8 ≤ s.frame.length := by omega
  simp only [masterRead]
  rw [if_neg (not_not_intro ⟨h1, h2, h3, h4⟩),
      if_neg (by omega),
      if_neg (by simp [h6, h7, h8])]
  refine ⟨rfl, rfl, rfl, rfl, ?_⟩
  simp only [flushPort, sendResponse]
  have hchain :
      ((((((s.frame.set 0 node).set 1 fn).set 2 (st >>> 8)).set 3 (st % 256)).set 4
          (nr >>> 8)).set 5 (nr % 256)).take 6 =
        [node, fn, st >>> 8, st % 256, nr >>> 8, nr % 256] :=
    take6_set_chain s.frame hlen6 _ _ _ _ _ _
  have hcrc :
      calculateCRC
        ((((((s.frame.set 0 node).set 1 fn).set 2 (st >>> 8)).set 3 (st % 256)).set 4
            (nr >>> 8)).set 5 (nr % 256)) 6 =
      calculateCRC [node, fn, st >>> 8, st % 256, nr >>> 8, nr % 256] 6 := by
    apply calculateCRC_congr
    rw [hchain]
    simp
  simp only [hcrc]
  rw [take8_set_chain s.frame hlen8]
  simp [requestBytes]

/-- On every failure path masterRead returns false and leaves the state
untouched. -/
theorem masterRead_fail (s : ModbusState) (now node fn st nr : Nat)
    (h : ¬(1 ≤ node ∧ node ≤ 254 ∧ (fn = 3 ∨ fn = 4) ∧ 0 < nr ∧
           (nr * 2 + 5) % 65536 ≤ BUFFER_SIZE ∧ s.onGoing = false ∧ s.isSending = false ∧
           s.waitingResponseFrom = 0)) :
    masterRead s now node fn st nr = (false, s) := by
  unfold masterRead
  repeat' split
  all_goals try rfl
  exfalso
  apply h
  rename_i hval hfit hbusy
  rw [not_not] at hval
  push_neg at hbusy
  obtain ⟨hv1, hv2, hv3, hv4⟩ := hval
  exact ⟨hv1, hv2, hv3, hv4, by omega,
    by simpa using hbusy.1, by simpa using hbusy.2.1, by simpa using hbusy.2.2⟩

/-- Counterexample to C5 as stated: at nrOfRegisters = 32766 the exact
response size 32766 * 2 + 5 = 65537 exceeds the 50-byte capacity, yet
the 16-bit size check wraps it to 1, so masterRead accepts the request,
marks sending, and transmits a frame, instead of returning false. -/
theorem masterRead_size_wrap_counterexample :
    BUFFER_SIZE < 32766 * 2 + 5 ∧
    (32766 * 2 + 5) % 65536 = 1 ∧
    (masterRead mkState 7 2 3 0 32766).1 = true ∧
    (masterRead mkState 7 2 3 0 32766).2.isSending = true ∧
    (masterRead mkState 7 2 3 0 32766).2.txLog.length = 1 := by
  refine ⟨?_, ?_, ?_, ?_, ?_⟩ <;> decide

/-- C5 amended: masterRead succeeds and transmits the 8-byte request
exactly when the node address, function code and register count checks
pass, the response-size check (nrOfRegisters * 2 + 5) reduced modulo
65536 by the 16-bit arithmetic does not exceed the 50-byte capacity,
and the engine is idle; it fails with no side effects in every other
case. For nrOfRegisters between 32766 and 32790 the wrapped check
passes although the exact response size exceeds the buffer. -/
theorem masterRead_validation (s : ModbusState) (now node fn st nr : Nat)
    (hlen : s.frame.length = BUFFER_SIZE) :
    ((masterRead s now node fn st nr).1 = true ↔
      (1 ≤ node ∧ node ≤ 254 ∧ (fn = 3 ∨ fn = 4) ∧ 0 < nr ∧
       (nr * 2 + 5) % 65536 ≤ BUFFER_SIZE ∧ s.onGoing = false ∧ s.isSending = false ∧
       s.waitingResponseFrom = 0)) ∧
    ((masterRead s now node fn st nr).1 = false →
      (masterRead s now node fn st nr).2 = s) ∧
    ((masterRead s now node fn st nr).1 = true →
      (masterRead s now node fn st nr).2.isSending = true ∧
      (masterRead s now node fn st nr).2.waitingResponseFrom = node ∧
      (masterRead s now node fn st nr).2.masterSentRequest = now ∧
      (masterRead s now node fn st nr).2.txLog =
        s.txLog ++ [requestBytes node fn st nr] ∧
      (requestBytes node fn st nr).length = 8) := by
  by_cases hc : 1 ≤ node ∧ node ≤ 254 ∧ (fn = 3 ∨ fn = 4) ∧ 0 < nr ∧
      (nr * 2 + 5) % 65536 ≤ BUFFER_SIZE ∧ s.onGoing = false ∧ s.isSending = false ∧
      s.waitingResponseFrom = 0
  · obtain ⟨h1, h2, h3, h4, h5, h6, h7, h8⟩ := hc
    have hs := masterRead_success s now node fn st nr h1 h2 h3 h4 h5 h6 h7 h8 hlen
    refine ⟨⟨fun _ => ⟨h1, h2, h3, h4, h5, h6, h7, h8⟩, fun _ => hs.1⟩, ?_, ?_⟩
    · intro hfalse
      rw [hs.1] at hfalse
      cases hfalse
    · intro _
      exact ⟨hs.2.1, hs.2.2.1, hs.2.2.2.1, hs.2.2.2.2, requestBytes_length node fn st nr⟩
  · have hf := masterRead_fail s now node fn st nr hc
    rw [hf]
    refine ⟨⟨(fun hfalse => nomatch hfalse), fun hcc => absurd hcc hc⟩,
      fun _ => rfl, (fun hfalse => nomatch hfalse)⟩

/-- Concrete instance of C5: a request to node 2 for 4 registers from
register 0 is accepted from the idle state and transmits the 8-byte
frame 02 03 00 00 00 04 plus CRC. -/
theorem masterRead_validation_witness :
    (masterRead mkState 7 2 3 0 4).1 = true ∧
    (masterRead mkState 7 2 3 0 4).2.txLog = [requestBytes 2 3 0 4] ∧
    (masterRead mkState 7 2 3 0 4).2.waitingResponseFrom = 2 ∧
    (masterRead mkState 7 2 3 0 4).2.masterSentRequest = 7 := by
  have h := masterRead_validation mkState 7 2 3 0 4 (by decide)
  have ht : (masterRead mkState 7 2 3 0 4).1 = true :=
    h.1.mpr (by refine ⟨?_, ?_, Or.inl rfl, ?_, ?_, rfl, rfl, rfl⟩ <;> decide)
  have he := h.2.2 ht
  exact ⟨ht, by simpa [mkState] using he.2.2.2.1, he.2.1, he.2.2.1⟩

/-! ## C6: master request timeout -/

theorem sendErrorResponse_waiting (s : ModbusState) (fc err : Nat) :
    (sendErrorResponse s fc err).2.waitingResponseFrom = s.waitingResponseFrom := by
  unfold sendErrorResponse sendErrorResponseFinish sendResponse
  repeat' split
  all_goals simp

theorem sendErrorResponse_masterHasResponse (s : ModbusState) (fc err : Nat) :
    (sendErrorResponse s fc err).2.masterHasResponse = false := by
  unfold sendErrorResponse sendErrorResponseFinish sendResponse
  repeat' split
  all_goals simp

theorem clearTimeout_waiting_of_timeout (s : ModbusState) (t : Nat)
    (hw : s.waitingResponseFrom ≠ 0)
    (ht : MASTER_READ_TIMEOUT < sub32 s.masterSentRequest t) :
    (clearTimeout s t).waitingResponseFrom = 0 := by
  unfold clearTimeout
  simp [hw, ht]

/-- Once the outstanding-request marker is clear at frame-processing
time it stays clear through the rest of the poll. -/
theorem processFrame_waiting_preserved (s : ModbusState)
    (h : s.waitingResponseFrom = 0) :
    (processFrame s).state.waitingResponseFrom = 0 := by
  simp only [processFrame]
  repeat' split
  all_goals simp_all [sendErrorResponse_waiting]

/-- A completed frame processed with no request outstanding and a
nonzero source address is never taken as a master response and never
newly sets the master-response flag. -/
theorem processFrame_foreign (s : ModbusState)
    (h0 : s.waitingResponseFrom = 0) (hf : s.frame.getD 0 0 ≠ 0) :
    (processFrame s).status ≠ MASTER_RECEIVED ∧
    ((processFrame s).state.masterHasResponse = true →
      s.masterHasResponse = true) := by
  simp only [processFrame]
  repeat' split
  all_goals constructor
  all_goals simp_all [sendErrorResponse_masterHasResponse,
    MASTER_RECEIVED, FRAME_RECEIVED, ERROR_ILLEGAL_FUNCTION, NO_FRAMES,
    ERROR_CRC_FAILED, ERROR_CORRUPTED, ERROR_OVERFLOW]

/-- A state that sent a master request to slave 2 at time 0 and is
still transmitting. -/
def sendingRequestState : ModbusState :=
  { mkState with isSending := true, waitingResponseFrom := 2, masterSentRequest := 0 }

/-- A state that sent a master request to slave 2 at time 0 and is
idle. -/
def sentRequestState : ModbusState :=
  { mkState with waitingResponseFrom := 2, masterSentRequest := 0 }

/-- A state holding a complete foreign 8-byte frame from slave 2 with
no master request outstanding. -/
def foreignFrameState : ModbusState :=
  { mkState with frame := requestBytes 2 3 0 4 ++ List.replicate 42 0, onGoing := true, buffer := 8 }

/-- Counterexample to C6 as stated: if the poll that observes the
expired timeout happens while a transmission is in progress, the
send-completion branch returns first and the outstanding-request marker
is not cleared by that poll. -/
theorem master_timeout_counterexample :
    MASTER_READ_TIMEOUT < sub32 sendingRequestState.masterSentRequest 2000 ∧
    sendingRequestState.waitingResponseFrom ≠ 0 ∧
    (modbusUpdate sendingRequestState ⟨true, 2000, 0, none⟩).status = FRAME_SENT ∧
    (modbusUpdate sendingRequestState
      ⟨true, 2000, 0, none⟩).state.waitingResponseFrom = 2 := by
  refine ⟨?_, ?_, ?_, ?_⟩ <;> decide

/-- C6 amended: on a poll with no transmission in progress, an
outstanding master request older than MASTER_READ_TIMEOUT is cleared;
and once the marker is clear, a later frame from a nonzero slave
address is foreign: the poll never reports MASTER_RECEIVED and never
newly sets the master-response flag. -/
theorem master_timeout_clears_and_foreign (s : ModbusState) (env : PollEnv)
    (hsend : s.isSending = false) :
    (s.waitingResponseFrom ≠ 0 →
      MASTER_READ_TIMEOUT < sub32 s.masterSentRequest env.millisNow →
      (modbusUpdate s env).state.waitingResponseFrom = 0) ∧
    (s.waitingResponseFrom = 0 → s.frame.getD 0 0 ≠ 0 →
      (modbusUpdate s env).status ≠ MASTER_RECEIVED ∧
      ((modbusUpdate s env).state.masterHasResponse = true →
        s.masterHasResponse = true)) := by
  obtain ⟨tx, ms, us, inc⟩ := env
  constructor
  · intro hw ht
    have hclear : (clearTimeout s ms).waitingResponseFrom = 0 :=
      clearTimeout_waiting_of_timeout s ms hw ht
    simp only [modbusUpdate, hsend, Bool.false_eq_true, if_false]
    cases inc with
    | none =>
      repeat' split
      all_goals simp_all [processFrame_waiting_preserved]
    | some b =>
      repeat' split
      all_goals simp_all
  · intro hw hf
    have hct : clearTimeout s ms = s := clearTimeout_of_waiting_zero s ms hw
    simp only [modbusUpdate, hsend, Bool.false_eq_true, if_false, hct]
    cases inc with
    | none =>
      repeat' split
      all_goals
        first
        | exact processFrame_foreign s hw hf
        | (constructor <;> simp_all [MASTER_RECEIVED, NO_FRAMES, FRAME_RECEIVING])
    | some b =>
      repeat' split
      all_goals constructor
      all_goals simp_all [MASTER_RECEIVED, FRAME_RECEIVING]

/-- Concrete instance of C6 as amended: with no transmission in
progress, the first poll 1001 ms after the request was sent clears the
outstanding marker, and a later completed frame from slave 2 is not
reported as MASTER_RECEIVED once the marker is clear. -/
theorem master_timeout_clears_and_foreign_witness :
    (modbusUpdate sentRequestState
      ⟨false, 1001, 0, none⟩).state.waitingResponseFrom = 0 ∧
    (modbusUpdate foreignFrameState
      ⟨false, 0, 5000, none⟩).status ≠ MASTER_RECEIVED := by
  constructor
  · exact (master_timeout_clears_and_foreign sentRequestState
      ⟨false, 1001, 0, none⟩ rfl).1 (by decide) (by decide)
  · exact ((master_timeout_clears_and_foreign foreignFrameState
      ⟨false, 0, 5000, none⟩ rfl).2 rfl (by decide)).1

/-! ## C7 and C10: masterGetLastResponse -/

theorem copyPayload_zero (f b : List Nat) : copyPayload f b 0 = b := rfl

theorem copyPayload_succ (f b : List Nat) (n : Nat) :
    copyPayload f b (n + 1) = (copyPayload f b n).set n (f.getD (3 + n) 0) := by
  unfold copyPayload
  rw [List.range_succ, List.foldl_append]
  rfl

theorem copyPayload_getD (f : List Nat) (n : Nat) (b : List Nat) (i : Nat)
    (hi : i < n) (hib : i < b.length) :
    (copyPayload f b n).getD i 0 = f.getD (3 + i) 0 := by
  induction n with
  | zero => omega
  | succ m ih =>
    rw [copyPayload_succ]
    by_cases him : i = m
    · rw [him]
      have hlen : m < (copyPayload f b m).length := by
        rw [copyPayload_length]
        omega
      simp [List.getD_eq_getElem?_getD, List.getElem?_set_self hlen]
    · have hi2 : i < m := by omega
      simp only [List.getD_eq_getElem?_getD,
        List.getElem?_set_ne (fun hmi => him hmi.symm)]
      simpa [List.getD_eq_getElem?_getD] using ih hi2

theorem copyPayload_set_comm (f : List Nat) (n : Nat) (b : List Nat)
    (j v : Nat) (hj : n ≤ j) :
    copyPayload f (b.set j v) n = (copyPayload f b n).set j v := by
  induction n with
  | zero => rfl
  | succ m ih =>
    rw [copyPayload_succ, copyPayload_succ, ih (by omega),
        List.set_comm _ _ _ (by omega)]

theorem copyPayload_idem (f b : List Nat) (n : Nat) :
    copyPayload f (copyPayload f b n) n = copyPayload f b n := by
  induction n with
  | zero => rfl
  | succ m ih =>
    rw [copyPayload_succ, copyPayload_succ,
        copyPayload_set_comm f m _ m _ (Nat.le_refl m), ih, List.set_set]

/-- C7: masterGetLastResponse copies the payload and returns the
byte-count field exactly when a response is flagged available, the
recomputed length fits the caller's budget, and it equals the declared
byte count; in every other case, including a response whose declared
length does not match, it returns zero and copies nothing. -/
theorem masterGetLastResponse_contract (s : ModbusState) (buffer : List Nat)
    (length : Nat) :
    ((s.masterHasResponse = true ∧ ((s.buffer : Int) - 5 ≤ (length : Int)) ∧
      ((s.buffer : Int) - 5 = ((s.frame.getD 2 0 : Nat) : Int))) →
      ((masterGetLastResponse s buffer length).1 = s.frame.getD 2 0 ∧
       (masterGetLastResponse s buffer length).2.2 =
         copyPayload s.frame buffer (s.frame.getD 2 0) ∧
       (masterGetLastResponse s buffer length).2.2.length = buffer.length ∧
       (∀ i, i < s.frame.getD 2 0 → i < buffer.length →
         (masterGetLastResponse s buffer length).2.2.getD i 0 =
           s.frame.getD (3 + i) 0))) ∧
    (¬(s.masterHasResponse = true ∧ ((s.buffer : Int) - 5 ≤ (length : Int)) ∧
      ((s.buffer : Int) - 5 = ((s.frame.getD 2 0 : Nat) : Int))) →
      ((masterGetLastResponse s buffer length).1 = 0 ∧
       (masterGetLastResponse s buffer length).2.2 = buffer)) := by
  constructor
  · rintro ⟨h1, h2, h3⟩
    unfold masterGetLastResponse
    rw [if_pos h1, if_pos h2, if_pos h3]
    refine ⟨rfl, rfl, copyPayload_length _ _ _, ?_⟩
    intro i hi hib
    exact copyPayload_getD s.frame _ buffer i hi hib
  · intro h
    unfold masterGetLastResponse
    repeat' split
    all_goals try exact ⟨rfl, rfl⟩
    rename_i h1 h2 h3
    exact absurd ⟨h1, h2, h3⟩ h

/-- A concrete state holding a complete master response from slave 2
with 8 payload bytes. -/
def responseState : ModbusState :=
  { mkState with masterHasResponse := true, buffer := 13,
                 frame := [2, 3, 8, 10, 11, 12, 13, 14, 15, 16, 17, 99, 99] ++ List.replicate 37 0 }

/-- Concrete instance of C7: a 13-byte response with byte count 8 and a
budget of 8 copies out 8 bytes and returns 8. -/
theorem masterGetLastResponse_contract_witness :
    (masterGetLastResponse responseState (List.replicate 8 0) 8).1 = 8 ∧
    (masterGetLastResponse responseState (List.replicate 8 0) 8).2.2 =
      [10, 11, 12, 13, 14, 15, 16, 17] ∧
    (masterGetLastResponse responseState (List.replicate 9 0) 2).1 = 0 := by
  have h1 := (masterGetLastResponse_contract responseState (List.replicate 8 0) 8).1
    (by refine ⟨rfl, ?_, ?_⟩ <;> decide)
  have h2 := (masterGetLastResponse_contract responseState (List.replicate 9 0) 2).2
    (by intro hcc; exact absurd hcc.2.1 (by decide))
  refine ⟨?_, ?_, h2.1⟩
  · simpa [responseState, mkState] using h1.1
  · rw [h1.2.1]
    decide

/-- C10: masterGetLastResponse never changes the engine state, a zero
return leaves the caller's buffer untouched, and an immediately
repeated call returns the identical result without consuming the
response. -/
theorem masterGetLastResponse_pure (s : ModbusState) (buffer : List Nat)
    (length : Nat) :
    (masterGetLastResponse s buffer length).2.1 = s ∧
    ((masterGetLastResponse s buffer length).1 = 0 →
      (masterGetLastResponse s buffer length).2.2 = buffer) ∧
    masterGetLastResponse s ((masterGetLastResponse s buffer length).2.2) length =
      ((masterGetLastResponse s buffer length).1, s,
       (masterGetLastResponse s buffer length).2.2) := by
  refine ⟨?_, ?_, ?_⟩
  · unfold masterGetLastResponse
    repeat' split
    all_goals rfl
  · unfold masterGetLastResponse
    repeat' split
    all_goals intro hz
    all_goals try rfl
    have hz2 : s.frame.getD 2 0 = 0 := hz
    show copyPayload s.frame buffer (s.frame.getD 2 0) = buffer
    rw [hz2, copyPayload_zero]
  · unfold masterGetLastResponse
    repeat' split
    all_goals try rfl
    all_goals simp_all [copyPayload_idem]

/-- Concrete instance of C10: fetching the response twice returns the
same bytes and leaves the response available. -/
theorem masterGetLastResponse_pure_witness :
    (masterGetLastResponse responseState (List.replicate 8 0) 8).2.1 =
      responseState ∧
    masterGetLastResponse responseState
        ((masterGetLastResponse responseState (List.replicate 8 0) 8).2.2) 8 =
      ((masterGetLastResponse responseState (List.replicate 8 0) 8).1,
       responseState,
       (masterGetLastResponse responseState (List.replicate 8 0) 8).2.2) := by
  have h := masterGetLastResponse_pure responseState (List.replicate 8 0) 8
  exact ⟨h.1, h.2.2⟩

/-! ## C8: timing parameters derived from the baud rate -/

/-- Counterexample to C8 as stated: the stored timings are integer
quotients truncated into uint16_t members, so at 9600 baud the stored
inter-character timeout is 1562, not the exact 1562.5 = 15000000/9600
microseconds the claim states; and at 110 baud even the integer
quotient 136363 does not fit and is stored modulo 65536. -/
theorem setComms_timing_counterexample :
    (setComms mkState 9600).t1_5 = 1562 ∧
    ((1562 : Rat) ≠ 15000000 / 9600) ∧
    (setComms mkState 9600).t3_5 = 3645 ∧
    ((3645 : Rat) ≠ 35000000 / 9600) ∧
    (setComms mkState 110).t1_5 = 5291 ∧
    15000000 / 110 = 136363 ∧
    (setComms mkState 110).t1_5 ≠ 15000000 / 110 := by
  refine ⟨by decide, by norm_num, by decide, by norm_num, by decide, by norm_num, by decide⟩

/-- C8 amended: above 19200 baud the timings are the fixed 750 and 1750
microseconds; at or below 19200 they are the truncating integer
quotients 15000000/baud and 35000000/baud reduced modulo 65536 by the
uint16_t members, and for baud rates from 535 to 19200 the reduction
does nothing, so the stored values are exactly the integer quotients
(1562 and 3645 at 9600 baud). -/
theorem setComms_timing (s : ModbusState) (baud : Nat) :
    (535 ≤ baud → baud ≤ 19200 →
      (setComms s baud).t1_5 = 15000000 / baud ∧
      (setComms s baud).t3_5 = 35000000 / baud) ∧
    (19200 < baud →
      (setComms s baud).t1_5 = 750 ∧ (setComms s baud).t3_5 = 1750) ∧
    (0 < baud → baud ≤ 19200 →
      (setComms s baud).t1_5 = (15000000 / baud) % 65536 ∧
      (setComms s baud).t3_5 = (35000000 / baud) % 65536) := by
  refine ⟨?_, ?_, ?_⟩
  · intro h535 h19200
    have hle : ¬(19200 < baud) := by omega
    have h1 : 15000000 / baud < 65536 := by
      have hm : 15000000 / baud ≤ 15000000 / 535 :=
        Nat.div_le_div_left h535 (by omega)
      omega
    have h3 : 35000000 / baud < 65536 := by
      have hm : 35000000 / baud ≤ 35000000 / 535 :=
        Nat.div_le_div_left h535 (by omega)
      omega
    simp [setComms, hle, Nat.mod_eq_of_lt h1, Nat.mod_eq_of_lt h3]
  · intro hgt
    simp [setComms, hgt]
  · intro hpos h19200
    have hle : ¬(19200 < baud) := by omega
    simp [setComms, hle]

/-- Concrete instance of C8 as amended: 9600 baud gives 1562 and 3645
microseconds, 38400 baud gives the fixed 750 and 1750. -/
theorem setComms_timing_witness :
    ((setComms mkState 9600).t1_5 = 15000000 / 9600 ∧
     (setComms mkState 9600).t3_5 = 35000000 / 9600) ∧
    ((setComms mkState 38400).t1_5 = 750 ∧
     (setComms mkState 38400).t3_5 = 1750) := by
  exact ⟨(setComms_timing mkState 9600).1 (by omega) (by omega),
         (setComms_timing mkState 38400).2.1 (by omega)⟩

/-! ## C9: the 100-byte clamp in the node-data storage interface -/

/-- A 23K256 handler state whose chip memory holds the byte 7
everywhere, so every node header is nonzero and every node exists. -/
def sramState : Sram23K256State where
  initialized := true
  memory := fun _ => 7

/-- C9 fails on the code: for an existing node, a read of 50 bytes at
offset 200 makes Sensors23K256Handler::getNodeData return 156 bytes,
because length = 100 - offset is computed on int and narrowed to
uint8_t, wrapping to 156 instead of clamping to at most 100. -/
theorem getNodeData_clamp_violation :
    (getNodeData23 sramState 1 50 200 (List.replicate 200 0)).1 = 156 ∧
    100 < (getNodeData23 sramState 1 50 200 (List.replicate 200 0)).1 ∧
    saveNodeData23 sramState 1 160 = 100 := by
  refine ⟨?_, ?_, ?_⟩ <;> decide

end Sensors
